import Mathlib

/-!
# ESP32 I2C handler: shallow embedding and verified properties

The C module `src/src/i2c_handler.c` is a thin layer over the ESP-IDF I2C
master driver.  Each C function becomes a Lean function that threads an
explicit `World` (heap bookkeeping, context memory, output slots and the
trace of calls issued) and consults an `Env` for what the allocator and
the driver answer.
-/

namespace I2CHandler

/-! ## Values -/

/-- C pointer value; zero is the null pointer. -/
abbrev Ptr := Nat

/-- The null pointer. -/
def NULL : Ptr := 0

/-- Result code type of ESP-IDF (a 32 bit signed integer). -/
abbrev esp_err_t := Int

/-- Success code, value from ESP-IDF esp_err.h. -/
def ESP_OK : esp_err_t := 0

/-- Generic failure code, value from ESP-IDF esp_err.h. -/
def ESP_FAIL : esp_err_t := -1

/-- Invalid argument code, value from ESP-IDF esp_err.h. -/
def ESP_ERR_INVALID_ARG : esp_err_t := 0x102

/-- Invalid state code, value from ESP-IDF esp_err.h. -/
def ESP_ERR_INVALID_STATE : esp_err_t := 0x103

/-- Requested resource not found, value from ESP-IDF esp_err.h. -/
def ESP_ERR_NOT_FOUND : esp_err_t := 0x105

/-- Operation timed out, value from ESP-IDF esp_err.h. -/
def ESP_ERR_TIMEOUT : esp_err_t := 0x107

/-- Probe timeout in milliseconds (i2c_handler.c line 13). -/
def I2C_HANDLER_PROBE_TIMEOUT_MS : Int := 100

/-- Log tag (i2c_handler.c line 15). -/
def TAG : String := "I2C_HDL"

/-- Configuration structure for bus initialization (i2c_handler.h lines 19-25). -/
structure i2c_handler_config_t where
  port : Int
  sda_pin : Int
  scl_pin : Int
  clk_speed : Nat
  enable_pullups : Bool
deriving DecidableEq, Repr

/-- Clock source selector of the driver.  Only the default source is named by
the handler; every other source of the chip is kept as a numbered alternative. -/
inductive i2c_clock_source_t where
  | I2C_CLK_SRC_DEFAULT
  | soc_clk (n : Nat)
deriving DecidableEq, Repr

/-- The flags member of the driver bus configuration. -/
structure i2c_master_bus_flags_t where
  enable_internal_pullup : Bool
deriving DecidableEq, Repr

/-- Driver bus configuration, with the members that i2c_handler_init sets
(i2c_handler.c lines 32-41). -/
structure i2c_master_bus_config_t where
  i2c_port : Int
  sda_io_num : Int
  scl_io_num : Int
  clk_source : i2c_clock_source_t
  glitch_ignore_cnt : Nat
  intr_priority : Int
  trans_queue_depth : Nat
  flags : i2c_master_bus_flags_t
deriving DecidableEq, Repr

/-- Address width selector of the driver. -/
inductive i2c_addr_bit_len_t where
  | I2C_ADDR_BIT_LEN_7
  | I2C_ADDR_BIT_LEN_10
deriving DecidableEq, Repr

/-- Driver device configuration, with the members that i2c_handler_add_device
sets (i2c_handler.c lines 73-77). -/
structure i2c_device_config_t where
  dev_addr_length : i2c_addr_bit_len_t
  device_address : Nat
  scl_speed_hz : Nat
deriving DecidableEq, Repr

/-- The context behind the handle (i2c_handler.c lines 17-19). -/
structure i2c_handler_ctx_t where
  bus_handle : Ptr
deriving DecidableEq, Repr

/-! ## Events, world and environment -/

/-- Severity of a log line: ESP_LOGE or ESP_LOGI. -/
inductive LogLevel where
  | error
  | info
deriving DecidableEq, Repr

/-- Argument of a log format string. -/
inductive LogArg where
  | err_name (e : esp_err_t)
  | int (n : Int)
deriving DecidableEq, Repr

/-- One externally visible action of the handler: an allocator call, a log
line, or a driver call together with the arguments passed to it. -/
inductive Event where
  | malloc (ret : Ptr)
  | free (p : Ptr)
  | log (lvl : LogLevel) (tag : String) (fmt : String) (args : List LogArg)
  | i2c_new_master_bus (bus_config : i2c_master_bus_config_t) (ret_bus_handle : Ptr)
  | i2c_del_master_bus (bus_handle : Ptr)
  | i2c_master_probe (bus_handle : Ptr) (address : Nat) (xfer_timeout_ms : Int)
  | i2c_master_bus_add_device (bus_handle : Ptr) (dev_config : i2c_device_config_t)
      (ret_handle : Ptr)
  | i2c_master_bus_rm_device (handle : Ptr)
  | i2c_master_transmit (i2c_dev : Ptr) (write_buffer : Ptr) (write_size : Nat)
      (xfer_timeout_ms : Int)
  | i2c_master_receive (i2c_dev : Ptr) (read_buffer : Ptr) (read_size : Nat)
      (xfer_timeout_ms : Int)
deriving DecidableEq, Repr

/-- The state the handler acts on.  `trace` lists the actions in the order they
were issued, `live` the outstanding allocations, `ctx_mem` the content of the
context stored at an address, `dev_slots` the content of a device handle slot. -/
structure World where
  trace : List Event
  live : List Ptr
  ctx_mem : Ptr → i2c_handler_ctx_t
  dev_slots : Ptr → Ptr

/-- What the allocator and the driver answer.  Every answer may depend on the
whole history of actions so far and on the arguments of the call.  A bus
creation or device registration answers a result code and, when it writes its
output slot, the handle it writes there. -/
structure Env where
  malloc : List Event → Ptr
  i2c_new_master_bus : List Event → i2c_master_bus_config_t → esp_err_t × Option Ptr
  i2c_del_master_bus : List Event → Ptr → esp_err_t
  i2c_master_probe : List Event → Ptr → Nat → Int → esp_err_t
  i2c_master_bus_add_device : List Event → Ptr → i2c_device_config_t → esp_err_t × Option Ptr
  i2c_master_bus_rm_device : List Event → Ptr → esp_err_t
  i2c_master_transmit : List Event → Ptr → Ptr → Nat → Int → esp_err_t
  i2c_master_receive : List Event → Ptr → Ptr → Nat → Int → esp_err_t

/-- Record one action at the end of the trace. -/
def emit (e : Event) (w : World) : World :=
  { w with trace := w.trace ++ [e] }

/-- The call malloc(sizeof(struct i2c_handler_ctx_t)): a non-null result becomes
an outstanding allocation. -/
def malloc (env : Env) (w : World) : Ptr × World :=
  let p := env.malloc w.trace
  (p, { emit (Event.malloc p) w with live := if p = NULL then w.live else p :: w.live })

/-- The call free(p): one outstanding allocation at p is released. -/
def free (p : Ptr) (w : World) : World :=
  { emit (Event.free p) w with live := w.live.erase p }

/-- The call memset(handler, 0, sizeof(struct i2c_handler_ctx_t)): a write to
the context memory, not recorded in the trace. -/
def memset_ctx (handler : Ptr) (w : World) : World :=
  { w with ctx_mem := Function.update w.ctx_mem handler ⟨NULL⟩ }

/-- The log call ESP_LOGE. -/
def ESP_LOGE (tag fmt : String) (args : List LogArg) (w : World) : World :=
  emit (Event.log LogLevel.error tag fmt args) w

/-- The log call ESP_LOGI. -/
def ESP_LOGI (tag fmt : String) (args : List LogArg) (w : World) : World :=
  emit (Event.log LogLevel.info tag fmt args) w

/-- Driver call i2c_new_master_bus(&bus_config, ret_bus_handle); the output slot
is the bus_handle member of the context at `ret_bus_handle`. -/
def i2c_new_master_bus (env : Env) (bus_config : i2c_master_bus_config_t)
    (ret_bus_handle : Ptr) (w : World) : esp_err_t × World :=
  let r := env.i2c_new_master_bus w.trace bus_config
  let w1 := emit (Event.i2c_new_master_bus bus_config ret_bus_handle) w
  (r.1,
    match r.2 with
    | some b => { w1 with ctx_mem := Function.update w1.ctx_mem ret_bus_handle ⟨b⟩ }
    | none => w1)

/-- Driver call i2c_del_master_bus(bus_handle). -/
def i2c_del_master_bus (env : Env) (bus_handle : Ptr) (w : World) : esp_err_t × World :=
  (env.i2c_del_master_bus w.trace bus_handle, emit (Event.i2c_del_master_bus bus_handle) w)

/-- Driver call i2c_master_probe(bus_handle, address, xfer_timeout_ms). -/
def i2c_master_probe (env : Env) (bus_handle : Ptr) (address : Nat) (xfer_timeout_ms : Int)
    (w : World) : esp_err_t × World :=
  (env.i2c_master_probe w.trace bus_handle address xfer_timeout_ms,
    emit (Event.i2c_master_probe bus_handle address xfer_timeout_ms) w)

/-- Driver call i2c_master_bus_add_device(bus_handle, &dev_config, ret_handle). -/
def i2c_master_bus_add_device (env : Env) (bus_handle : Ptr) (dev_config : i2c_device_config_t)
    (ret_handle : Ptr) (w : World) : esp_err_t × World :=
  let r := env.i2c_master_bus_add_device w.trace bus_handle dev_config
  let w1 := emit (Event.i2c_master_bus_add_device bus_handle dev_config ret_handle) w
  (r.1,
    match r.2 with
    | some d => { w1 with dev_slots := Function.update w1.dev_slots ret_handle d }
    | none => w1)

/-- Driver call i2c_master_bus_rm_device(handle). -/
def i2c_master_bus_rm_device (env : Env) (handle : Ptr) (w : World) : esp_err_t × World :=
  (env.i2c_master_bus_rm_device w.trace handle, emit (Event.i2c_master_bus_rm_device handle) w)

/-- Driver call i2c_master_transmit(i2c_dev, write_buffer, write_size, xfer_timeout_ms). -/
def i2c_master_transmit (env : Env) (i2c_dev write_buffer : Ptr) (write_size : Nat)
    (xfer_timeout_ms : Int) (w : World) : esp_err_t × World :=
  (env.i2c_master_transmit w.trace i2c_dev write_buffer write_size xfer_timeout_ms,
    emit (Event.i2c_master_transmit i2c_dev write_buffer write_size xfer_timeout_ms) w)

/-- Driver call i2c_master_receive(i2c_dev, read_buffer, read_size, xfer_timeout_ms). -/
def i2c_master_receive (env : Env) (i2c_dev read_buffer : Ptr) (read_size : Nat)
    (xfer_timeout_ms : Int) (w : World) : esp_err_t × World :=
  (env.i2c_master_receive w.trace i2c_dev read_buffer read_size xfer_timeout_ms,
    emit (Event.i2c_master_receive i2c_dev read_buffer read_size xfer_timeout_ms) w)

/-! ## The handler (i2c_handler.c) -/

/-- The bus configuration built at i2c_handler.c lines 32-41. -/
def bus_config_of (config : i2c_handler_config_t) : i2c_master_bus_config_t :=
  { i2c_port := config.port
    sda_io_num := config.sda_pin
    scl_io_num := config.scl_pin
    clk_source := i2c_clock_source_t.I2C_CLK_SRC_DEFAULT
    glitch_ignore_cnt := 7
    intr_priority := 0
    trans_queue_depth := 0
    flags := { enable_internal_pullup := config.enable_pullups } }

/-- The function i2c_handler_init (i2c_handler.c lines 21-52).  A null
configuration pointer is `none`. -/
def i2c_handler_init (env : Env) (config : Option i2c_handler_config_t) (w : World) :
    Ptr × World :=
  match config with
  | none => (NULL, w)
  | some config =>
    let m := malloc env w
    let handler := m.1
    if handler = NULL then
      (NULL, ESP_LOGE TAG "Memory allocation failed" [] m.2)
    else
      let w1 := memset_ctx handler m.2
      let bus_config := bus_config_of config
      let r := i2c_new_master_bus env bus_config handler w1
      let ret := r.1
      if ret ≠ ESP_OK then
        (NULL, free handler (ESP_LOGE TAG "Bus init failed: %s" [LogArg.err_name ret] r.2))
      else
        (handler,
          ESP_LOGI TAG "I2C Master Bus Initialized (Port %d)" [LogArg.int config.port] r.2)

/-- The function i2c_handler_deinit (i2c_handler.c lines 54-60). -/
def i2c_handler_deinit (env : Env) (handler : Ptr) (w : World) : World :=
  if handler ≠ NULL then
    let d := i2c_del_master_bus env (w.ctx_mem handler).bus_handle w
    ESP_LOGI TAG "I2C Master Bus De-initialized" [] (free handler d.2)
  else
    w

/-- The function i2c_handler_probe (i2c_handler.c lines 62-68).  The uint8_t
address is widened without change to the address parameter of the driver. -/
def i2c_handler_probe (env : Env) (handler : Ptr) (dev_addr : Nat) (w : World) :
    esp_err_t × World :=
  if handler = NULL then (ESP_ERR_INVALID_ARG, w)
  else
    i2c_master_probe env (w.ctx_mem handler).bus_handle dev_addr I2C_HANDLER_PROBE_TIMEOUT_MS w

/-- The function i2c_handler_add_device (i2c_handler.c lines 70-80).  The
uint8_t address and the uint32_t speed are stored without change in members at
least as wide. -/
def i2c_handler_add_device (env : Env) (handler : Ptr) (dev_addr : Nat) (speed_hz : Nat)
    (out_dev_handle : Ptr) (w : World) : esp_err_t × World :=
  if handler = NULL ∨ out_dev_handle = NULL then (ESP_ERR_INVALID_ARG, w)
  else
    let dev_cfg : i2c_device_config_t :=
      { dev_addr_length := i2c_addr_bit_len_t.I2C_ADDR_BIT_LEN_7
        device_address := dev_addr
        scl_speed_hz := speed_hz }
    i2c_master_bus_add_device env (w.ctx_mem handler).bus_handle dev_cfg out_dev_handle w

/-- The function i2c_handler_remove_device (i2c_handler.c lines 82-86). -/
def i2c_handler_remove_device (env : Env) (dev_handle : Ptr) (w : World) : World :=
  if dev_handle ≠ NULL then
    (i2c_master_bus_rm_device env dev_handle w).2
  else
    w

/-- The function i2c_handler_device_write (i2c_handler.c lines 88-96). -/
def i2c_handler_device_write (env : Env) (dev_handle : Ptr) (data : Ptr) (len : Nat)
    (w : World) : esp_err_t × World :=
  i2c_master_transmit env dev_handle data len (-1) w

/-- The function i2c_handler_device_read (i2c_handler.c lines 98-100). -/
def i2c_handler_device_read (env : Env) (dev_handle : Ptr) (data : Ptr) (len : Nat)
    (w : World) : esp_err_t × World :=
  i2c_master_receive env dev_handle data len (-1) w

/-! ## Observations on traces -/

/-- The bus configurations of the bus-creation calls in a trace, in order. -/
def bus_create_requests (t : List Event) : List i2c_master_bus_config_t :=
  t.filterMap fun e =>
    match e with
    | Event.i2c_new_master_bus c _ => some c
    | _ => none

/-- The actions issued between world `w` and a later world `w2`. -/
def new_events (w w2 : World) : List Event :=
  w2.trace.drop w.trace.length

/-- Whether an action is a call into the I2C driver. -/
def is_driver_call (e : Event) : Bool :=
  match e with
  | Event.malloc _ => false
  | Event.free _ => false
  | Event.log _ _ _ _ => false
  | _ => true

/-! ## Concrete worlds and environments used for the witnesses -/

/-- An empty world: nothing issued, nothing allocated, all memory zero. -/
def world0 : World :=
  { trace := [], live := [], ctx_mem := fun _ => ⟨NULL⟩, dev_slots := fun _ => NULL }

/-- An environment in which the allocator returns `alloc`, bus creation answers
`create`, device registration writes handle 32, and every driver call other
than bus creation answers `code`. -/
def env_of (alloc : Ptr) (create : esp_err_t × Option Ptr) (code : esp_err_t) : Env :=
  { malloc := fun _ => alloc
    i2c_new_master_bus := fun _ _ => create
    i2c_del_master_bus := fun _ _ => code
    i2c_master_probe := fun _ _ _ _ => code
    i2c_master_bus_add_device := fun _ _ _ => (code, some 32)
    i2c_master_bus_rm_device := fun _ _ => code
    i2c_master_transmit := fun _ _ _ _ _ => code
    i2c_master_receive := fun _ _ _ _ _ => code }

/-- A sample configuration: port 0, SDA on pin 21, SCL on pin 22, 100 kHz. -/
def config0 : i2c_handler_config_t :=
  { port := 0, sda_pin := 21, scl_pin := 22, clk_speed := 100000, enable_pullups := true }

/-! ## Theorems -/

/-- The actions issued after a trace that only grew are the part appended. -/
theorem new_events_append (w w2 : World) (l : List Event) (h : w2.trace = w.trace ++ l) :
    new_events w w2 = l := by
  simp [new_events, h]

/-- Shape of i2c_handler_init when the allocation fails. -/
theorem init_alloc_fail (env : Env) (w : World) (config : i2c_handler_config_t)
    (h : env.malloc w.trace = NULL) :
    i2c_handler_init env (some config) w =
      (NULL, { w with trace := w.trace ++
        [Event.malloc NULL, Event.log LogLevel.error TAG "Memory allocation failed" []] }) := by
  simp [i2c_handler_init, malloc, h, ESP_LOGE, emit]

/-- Shape of i2c_handler_init when the allocation succeeds and bus creation fails. -/
theorem init_bus_fail (env : Env) (w : World) (config : i2c_handler_config_t)
    (halloc : env.malloc w.trace ≠ NULL)
    (hfail : (env.i2c_new_master_bus (w.trace ++ [Event.malloc (env.malloc w.trace)])
      (bus_config_of config)).1 ≠ ESP_OK) :
    (i2c_handler_init env (some config) w).1 = NULL ∧
    (i2c_handler_init env (some config) w).2.live = w.live ∧
    (i2c_handler_init env (some config) w).2.trace = w.trace ++
      [Event.malloc (env.malloc w.trace),
       Event.i2c_new_master_bus (bus_config_of config) (env.malloc w.trace),
       Event.log LogLevel.error TAG "Bus init failed: %s"
         [LogArg.err_name (env.i2c_new_master_bus
           (w.trace ++ [Event.malloc (env.malloc w.trace)]) (bus_config_of config)).1],
       Event.free (env.malloc w.trace)] := by
  simp only [i2c_handler_init, malloc, emit, memset_ctx, i2c_new_master_bus, if_neg halloc,
    ne_eq, hfail, not_false_eq_true, if_true, free, ESP_LOGE]
  refine ⟨trivial, ?_, ?_⟩
  · cases (env.i2c_new_master_bus (w.trace ++ [Event.malloc (env.malloc w.trace)])
      (bus_config_of config)).2 <;> simp
  · cases (env.i2c_new_master_bus (w.trace ++ [Event.malloc (env.malloc w.trace)])
      (bus_config_of config)).2 <;> simp

/-- Shape of i2c_handler_init when the allocation and bus creation succeed. -/
theorem init_ok (env : Env) (w : World) (config : i2c_handler_config_t)
    (halloc : env.malloc w.trace ≠ NULL)
    (hok : (env.i2c_new_master_bus (w.trace ++ [Event.malloc (env.malloc w.trace)])
      (bus_config_of config)).1 = ESP_OK) :
    (i2c_handler_init env (some config) w).1 = env.malloc w.trace ∧
    (i2c_handler_init env (some config) w).2.live = env.malloc w.trace :: w.live ∧
    (i2c_handler_init env (some config) w).2.trace = w.trace ++
      [Event.malloc (env.malloc w.trace),
       Event.i2c_new_master_bus (bus_config_of config) (env.malloc w.trace),
       Event.log LogLevel.info TAG "I2C Master Bus Initialized (Port %d)"
         [LogArg.int config.port]] ∧
    ((i2c_handler_init env (some config) w).2.ctx_mem (env.malloc w.trace)).bus_handle =
      (env.i2c_new_master_bus (w.trace ++ [Event.malloc (env.malloc w.trace)])
        (bus_config_of config)).2.getD NULL := by
  simp only [i2c_handler_init, malloc, emit, memset_ctx, i2c_new_master_bus, if_neg halloc,
    ne_eq, hok, not_true_eq_false, if_false, ESP_LOGI]
  refine ⟨trivial, ?_, ?_, ?_⟩
  · cases (env.i2c_new_master_bus (w.trace ++ [Event.malloc (env.malloc w.trace)])
      (bus_config_of config)).2 <;> simp
  · cases (env.i2c_new_master_bus (w.trace ++ [Event.malloc (env.malloc w.trace)])
      (bus_config_of config)).2 <;> simp
  · cases (env.i2c_new_master_bus (w.trace ++ [Event.malloc (env.malloc w.trace)])
      (bus_config_of config)).2 <;> simp

/-! ### C1: bus creation failure -/

/-- C1: for every non-null configuration, if the allocation succeeds and the
bus-creation call returns a code other than ESP_OK, then i2c_handler_init
returns NULL, the only allocator actions are the one malloc and one free of
the same context (so it is freed exactly once), and the outstanding
allocations after the call are those before it.  The actions issued are, in
order: malloc, the bus-creation call, the error log, free. -/
theorem init_bus_failure_frees_context (env : Env) (w : World) (config : i2c_handler_config_t)
    (halloc : env.malloc w.trace ≠ NULL)
    (hfail : (env.i2c_new_master_bus (w.trace ++ [Event.malloc (env.malloc w.trace)])
      (bus_config_of config)).1 ≠ ESP_OK) :
    (i2c_handler_init env (some config) w).1 = NULL ∧
    (i2c_handler_init env (some config) w).2.live = w.live ∧
    (i2c_handler_init env (some config) w).2.live.length = w.live.length ∧
    (new_events w (i2c_handler_init env (some config) w).2).count
      (Event.free (env.malloc w.trace)) = 1 ∧
    new_events w (i2c_handler_init env (some config) w).2 =
      [Event.malloc (env.malloc w.trace),
       Event.i2c_new_master_bus (bus_config_of config) (env.malloc w.trace),
       Event.log LogLevel.error TAG "Bus init failed: %s"
         [LogArg.err_name (env.i2c_new_master_bus
           (w.trace ++ [Event.malloc (env.malloc w.trace)]) (bus_config_of config)).1],
       Event.free (env.malloc w.trace)] := by
  obtain ⟨h1, h2, h3⟩ := init_bus_fail env w config halloc hfail
  rw [new_events_append w _ _ h3]
  refine ⟨h1, h2, by rw [h2], ?_, rfl⟩
  simp [List.count_cons]

/-- Witness for C1: allocation at address 16 succeeds and bus creation answers
ESP_FAIL. -/
theorem init_bus_failure_frees_context_witness :
    (i2c_handler_init (env_of 16 (ESP_FAIL, none) ESP_OK) (some config0) world0).1 = NULL ∧
    (i2c_handler_init (env_of 16 (ESP_FAIL, none) ESP_OK) (some config0) world0).2.live
      = world0.live :=
  ⟨(init_bus_failure_frees_context (env_of 16 (ESP_FAIL, none) ESP_OK) world0 config0
      (by decide) (by decide)).1,
   (init_bus_failure_frees_context (env_of 16 (ESP_FAIL, none) ESP_OK) world0 config0
      (by decide) (by decide)).2.1⟩

/-! ### C2: guards before bus creation -/

/-- C2: with a null configuration i2c_handler_init returns NULL and leaves the
world untouched (no allocation, no driver call, no log); with a non-null
configuration under allocation failure it returns NULL, nothing stays
allocated and no driver call is issued; and whenever a bus-creation call is
issued the configuration was non-null and the allocation succeeded. -/
theorem init_guards_bus_creation (env : Env) (w : World) :
    i2c_handler_init env none w = (NULL, w) ∧
    (∀ config : i2c_handler_config_t, env.malloc w.trace = NULL →
      (i2c_handler_init env (some config) w).1 = NULL ∧
      (i2c_handler_init env (some config) w).2.live = w.live ∧
      new_events w (i2c_handler_init env (some config) w).2 =
        [Event.malloc NULL, Event.log LogLevel.error TAG "Memory allocation failed" []] ∧
      (new_events w (i2c_handler_init env (some config) w).2).filter is_driver_call = []) ∧
    (∀ config : Option i2c_handler_config_t,
      bus_create_requests (new_events w (i2c_handler_init env config w).2) ≠ [] →
      config ≠ none ∧ env.malloc w.trace ≠ NULL) := by
  refine ⟨rfl, ?_, ?_⟩
  · intro config h
    rw [init_alloc_fail env w config h]
    simp [new_events, is_driver_call]
  · intro config hreq
    cases config with
    | none => simp [i2c_handler_init, new_events, bus_create_requests] at hreq
    | some c =>
      refine ⟨by simp, ?_⟩
      intro h
      rw [init_alloc_fail env w c h] at hreq
      simp [new_events, bus_create_requests] at hreq

/-- Witness for C2: a failing allocator (malloc answers NULL). -/
theorem init_guards_bus_creation_witness :
    (i2c_handler_init (env_of NULL (ESP_OK, some 64) ESP_OK) (some config0) world0).1 = NULL ∧
    (new_events world0
      (i2c_handler_init (env_of NULL (ESP_OK, some 64) ESP_OK) (some config0) world0).2).filter
        is_driver_call = [] :=
  ⟨((init_guards_bus_creation (env_of NULL (ESP_OK, some 64) ESP_OK) world0).2.1 config0 rfl).1,
   ((init_guards_bus_creation (env_of NULL (ESP_OK, some 64) ESP_OK) world0).2.1
      config0 rfl).2.2.2⟩

/-! ### C3: init followed by deinit -/

/-- C3: for every non-null configuration for which allocation and bus creation
succeed, i2c_handler_init followed immediately by i2c_handler_deinit on the
returned handle leaves the outstanding allocations as they were; the context
is freed exactly once, and exactly one bus-delete call is issued, on the bus
handle that bus creation stored in the context. -/
theorem init_then_deinit_no_leak (env : Env) (w : World) (config : i2c_handler_config_t)
    (halloc : env.malloc w.trace ≠ NULL)
    (hok : (env.i2c_new_master_bus (w.trace ++ [Event.malloc (env.malloc w.trace)])
      (bus_config_of config)).1 = ESP_OK) :
    (i2c_handler_init env (some config) w).1 = env.malloc w.trace ∧
    (i2c_handler_deinit env (i2c_handler_init env (some config) w).1
      (i2c_handler_init env (some config) w).2).live = w.live ∧
    new_events w (i2c_handler_deinit env (i2c_handler_init env (some config) w).1
      (i2c_handler_init env (some config) w).2) =
      [Event.malloc (env.malloc w.trace),
       Event.i2c_new_master_bus (bus_config_of config) (env.malloc w.trace),
       Event.log LogLevel.info TAG "I2C Master Bus Initialized (Port %d)"
         [LogArg.int config.port],
       Event.i2c_del_master_bus
         ((i2c_handler_init env (some config) w).2.ctx_mem (env.malloc w.trace)).bus_handle,
       Event.free (env.malloc w.trace),
       Event.log LogLevel.info TAG "I2C Master Bus De-initialized" []] ∧
    ((i2c_handler_init env (some config) w).2.ctx_mem (env.malloc w.trace)).bus_handle =
      (env.i2c_new_master_bus (w.trace ++ [Event.malloc (env.malloc w.trace)])
        (bus_config_of config)).2.getD NULL ∧
    (new_events w (i2c_handler_deinit env (i2c_handler_init env (some config) w).1
      (i2c_handler_init env (some config) w).2)).count (Event.free (env.malloc w.trace)) = 1 ∧
    (new_events w (i2c_handler_deinit env (i2c_handler_init env (some config) w).1
      (i2c_handler_init env (some config) w).2)).filter
        (fun e => match e with
          | Event.i2c_del_master_bus _ => true
          | _ => false) =
      [Event.i2c_del_master_bus ((env.i2c_new_master_bus
        (w.trace ++ [Event.malloc (env.malloc w.trace)]) (bus_config_of config)).2.getD NULL)] := by
  obtain ⟨h1, h2, h3, h4⟩ := init_ok env w config halloc hok
  have ht : (i2c_handler_deinit env (i2c_handler_init env (some config) w).1
      (i2c_handler_init env (some config) w).2).trace = w.trace ++
      [Event.malloc (env.malloc w.trace),
       Event.i2c_new_master_bus (bus_config_of config) (env.malloc w.trace),
       Event.log LogLevel.info TAG "I2C Master Bus Initialized (Port %d)"
         [LogArg.int config.port],
       Event.i2c_del_master_bus
         ((i2c_handler_init env (some config) w).2.ctx_mem (env.malloc w.trace)).bus_handle,
       Event.free (env.malloc w.trace),
       Event.log LogLevel.info TAG "I2C Master Bus De-initialized" []] := by
    rw [h1]
    simp [i2c_handler_deinit, halloc, i2c_del_master_bus, free, ESP_LOGI, emit, h3]
  have hl : (i2c_handler_deinit env (i2c_handler_init env (some config) w).1
      (i2c_handler_init env (some config) w).2).live = w.live := by
    rw [h1]
    simp [i2c_handler_deinit, halloc, i2c_del_master_bus, free, ESP_LOGI, emit, h2]
  rw [new_events_append w _ _ ht]
  refine ⟨h1, hl, rfl, h4, ?_, ?_⟩
  · simp [List.count_cons]
  · simp [List.filter_cons, h4]

/-- Witness for C3: allocation at address 16, bus creation succeeds and stores
bus handle 64. -/
theorem init_then_deinit_no_leak_witness :
    (i2c_handler_deinit (env_of 16 (ESP_OK, some 64) ESP_OK)
      (i2c_handler_init (env_of 16 (ESP_OK, some 64) ESP_OK) (some config0) world0).1
      (i2c_handler_init (env_of 16 (ESP_OK, some 64) ESP_OK) (some config0) world0).2).live
      = world0.live :=
  (init_then_deinit_no_leak (env_of 16 (ESP_OK, some 64) ESP_OK) world0 config0
    (by decide) (by decide)).2.1

/-! ### C4: the bus-creation request -/

/-- C4: for every non-null configuration with a successful allocation,
i2c_handler_init issues exactly one bus-creation call, whatever the driver
answers; its bus configuration takes port, SDA pin, SCL pin and pull-up flag
from the configuration, with the clock source fixed to I2C_CLK_SRC_DEFAULT,
glitch filter count 7, interrupt priority 0 and transaction queue depth 0. -/
theorem init_bus_request (env : Env) (w : World) (config : i2c_handler_config_t)
    (halloc : env.malloc w.trace ≠ NULL) :
    bus_create_requests (new_events w (i2c_handler_init env (some config) w).2) =
      [{ i2c_port := config.port
         sda_io_num := config.sda_pin
         scl_io_num := config.scl_pin
         clk_source := i2c_clock_source_t.I2C_CLK_SRC_DEFAULT
         glitch_ignore_cnt := 7
         intr_priority := 0
         trans_queue_depth := 0
         flags := { enable_internal_pullup := config.enable_pullups } }] := by
  by_cases hret : (env.i2c_new_master_bus (w.trace ++ [Event.malloc (env.malloc w.trace)])
      (bus_config_of config)).1 = ESP_OK
  · obtain ⟨_, _, h3, _⟩ := init_ok env w config halloc hret
    rw [new_events_append w _ _ h3]
    simp [bus_create_requests, bus_config_of]
  · obtain ⟨_, _, h3⟩ := init_bus_fail env w config halloc hret
    rw [new_events_append w _ _ h3]
    simp [bus_create_requests, bus_config_of]

/-- Witness for C4: the sample configuration with allocation at address 16. -/
theorem init_bus_request_witness :
    bus_create_requests (new_events world0
      (i2c_handler_init (env_of 16 (ESP_OK, some 64) ESP_OK) (some config0) world0).2) =
      [{ i2c_port := 0
         sda_io_num := 21
         scl_io_num := 22
         clk_source := i2c_clock_source_t.I2C_CLK_SRC_DEFAULT
         glitch_ignore_cnt := 7
         intr_priority := 0
         trans_queue_depth := 0
         flags := { enable_internal_pullup := true } }] :=
  init_bus_request (env_of 16 (ESP_OK, some 64) ESP_OK) world0 config0 (by decide)

/-! ### C5: the clock speed of the configuration -/

/-- The bus configuration built by i2c_handler_init does not read clk_speed. -/
theorem bus_config_of_clk_speed (config : i2c_handler_config_t) (s : Nat) :
    bus_config_of { config with clk_speed := s } = bus_config_of config := rfl

/-- Replacing clk_speed in the configuration changes nothing in i2c_handler_init. -/
theorem init_clk_speed_irrelevant (env : Env) (w : World) (config : i2c_handler_config_t)
    (s : Nat) :
    i2c_handler_init env (some { config with clk_speed := s }) w =
      i2c_handler_init env (some config) w := rfl

/-- C5, as amended: i2c_handler_init builds the bus-creation request from the
port, the two pins and the pull-up flag of the configuration and never reads
clk_speed.  Two configurations that differ only in clk_speed give the same
bus-creation request, the same returned handle and the same resulting world. -/
theorem init_ignores_clk_speed (env : Env) (w : World) (config : i2c_handler_config_t)
    (s : Nat) :
    (bus_config_of config).i2c_port = config.port ∧
    (bus_config_of config).sda_io_num = config.sda_pin ∧
    (bus_config_of config).scl_io_num = config.scl_pin ∧
    (bus_config_of config).flags.enable_internal_pullup = config.enable_pullups ∧
    bus_config_of { config with clk_speed := s } = bus_config_of config ∧
    i2c_handler_init env (some { config with clk_speed := s }) w =
      i2c_handler_init env (some config) w ∧
    bus_create_requests
        (new_events w (i2c_handler_init env (some { config with clk_speed := s }) w).2) =
      bus_create_requests (new_events w (i2c_handler_init env (some config) w).2) := by
  refine ⟨rfl, rfl, rfl, rfl, bus_config_of_clk_speed config s,
    init_clk_speed_irrelevant env w config s, ?_⟩
  rw [init_clk_speed_irrelevant]

/-- C5, refuted as stated: at 100 kHz and at 400 kHz the sample configuration
yields the same bus-creation request, and no environment, world and pair of
configurations that agree on every member but clk_speed yield different
bus-creation requests. -/
theorem clk_speed_not_in_bus_request :
    bus_create_requests (new_events world0 (i2c_handler_init
        (env_of 16 (ESP_OK, some 64) ESP_OK) (some { config0 with clk_speed := 100000 })
        world0).2) =
      bus_create_requests (new_events world0 (i2c_handler_init
        (env_of 16 (ESP_OK, some 64) ESP_OK) (some { config0 with clk_speed := 400000 })
        world0).2) ∧
    ¬ ∃ (env : Env) (w : World) (c1 c2 : i2c_handler_config_t),
      c1.port = c2.port ∧ c1.sda_pin = c2.sda_pin ∧ c1.scl_pin = c2.scl_pin ∧
      c1.enable_pullups = c2.enable_pullups ∧
      bus_create_requests (new_events w (i2c_handler_init env (some c1) w).2) ≠
        bus_create_requests (new_events w (i2c_handler_init env (some c2) w).2) := by
  refine ⟨rfl, ?_⟩
  rintro ⟨env, w, c1, c2, hp, hsda, hscl, hpu, hne⟩
  apply hne
  have hc : c2 = { c1 with clk_speed := c2.clk_speed } := by
    cases c1; cases c2; simp_all
  have hi : i2c_handler_init env (some c2) w = i2c_handler_init env (some c1) w :=
    hc ▸ init_clk_speed_irrelevant env w c1 c2.clk_speed
  rw [hi]

/-! ### C6 and C7: probe -/

/-- C6: i2c_handler_probe with a null handle returns ESP_ERR_INVALID_ARG and
leaves the world untouched (no driver call); with a non-null handle it issues
exactly one i2c_master_probe call on the bus stored in the context, with the
same address and a timeout of exactly 100 ms, changes nothing else, and returns
the result code of that call unchanged. -/
theorem probe_contract (env : Env) (w : World) (dev_addr : Nat) :
    i2c_handler_probe env NULL dev_addr w = (ESP_ERR_INVALID_ARG, w) ∧
    ∀ handler : Ptr, handler ≠ NULL →
      (i2c_handler_probe env handler dev_addr w).1
          = env.i2c_master_probe w.trace (w.ctx_mem handler).bus_handle dev_addr 100 ∧
      new_events w (i2c_handler_probe env handler dev_addr w).2
          = [Event.i2c_master_probe (w.ctx_mem handler).bus_handle dev_addr 100] ∧
      (i2c_handler_probe env handler dev_addr w).2.live = w.live ∧
      (i2c_handler_probe env handler dev_addr w).2.ctx_mem = w.ctx_mem ∧
      (i2c_handler_probe env handler dev_addr w).2.dev_slots = w.dev_slots := by
  refine ⟨by simp [i2c_handler_probe], ?_⟩
  intro handler h
  simp [i2c_handler_probe, h, i2c_master_probe, emit, I2C_HANDLER_PROBE_TIMEOUT_MS, new_events]

/-- Witness for C6: probing address 0x50 through handle 16 in the empty world. -/
theorem probe_contract_witness :
    (i2c_handler_probe (env_of 16 (ESP_OK, some 64) ESP_ERR_NOT_FOUND) 16 0x50 world0).1
      = (env_of 16 (ESP_OK, some 64) ESP_ERR_NOT_FOUND).i2c_master_probe world0.trace
          (world0.ctx_mem 16).bus_handle 0x50 100 :=
  ((probe_contract (env_of 16 (ESP_OK, some 64) ESP_ERR_NOT_FOUND) world0 0x50).2 16
    (by decide)).1

/-- C7, the code at the failing input: on a handle obtained from a successful
i2c_handler_init, when the driver probe call answers ESP_ERR_TIMEOUT, the
result of i2c_handler_probe is ESP_ERR_TIMEOUT, which is none of ESP_OK,
ESP_ERR_NOT_FOUND and ESP_ERR_INVALID_ARG. -/
theorem probe_returns_other_code :
    (i2c_handler_init (env_of 16 (ESP_OK, some 64) ESP_ERR_TIMEOUT) (some config0) world0).1
      = 16 ∧
    (i2c_handler_probe (env_of 16 (ESP_OK, some 64) ESP_ERR_TIMEOUT)
      (i2c_handler_init (env_of 16 (ESP_OK, some 64) ESP_ERR_TIMEOUT) (some config0) world0).1
      0x50
      (i2c_handler_init (env_of 16 (ESP_OK, some 64) ESP_ERR_TIMEOUT) (some config0) world0).2).1
      = ESP_ERR_TIMEOUT ∧
    ESP_ERR_TIMEOUT ≠ ESP_OK ∧ ESP_ERR_TIMEOUT ≠ ESP_ERR_NOT_FOUND ∧
    ESP_ERR_TIMEOUT ≠ ESP_ERR_INVALID_ARG := by
  refine ⟨rfl, rfl, ?_, ?_, ?_⟩ <;> decide

/-! ### C8: attaching a device -/

/-- C8: for every address and speed, i2c_handler_add_device returns
ESP_ERR_INVALID_ARG and leaves the world untouched (no driver call, no write to
the output slot) whenever the handle or the output pointer is null; otherwise
it issues exactly one i2c_master_bus_add_device call on the bus stored in the
context, with a 7-bit address length, device address dev_addr and SCL speed
speed_hz, passing the output slot of the caller, and returns the result code of
that call unchanged. -/
theorem add_device_contract (env : Env) (w : World) (dev_addr speed_hz : Nat) :
    (∀ handler out_dev_handle : Ptr, handler = NULL ∨ out_dev_handle = NULL →
      i2c_handler_add_device env handler dev_addr speed_hz out_dev_handle w
        = (ESP_ERR_INVALID_ARG, w)) ∧
    (∀ handler : Ptr,
      i2c_handler_add_device env handler dev_addr speed_hz NULL w = (ESP_ERR_INVALID_ARG, w)) ∧
    (∀ handler out_dev_handle : Ptr, handler ≠ NULL → out_dev_handle ≠ NULL →
      (i2c_handler_add_device env handler dev_addr speed_hz out_dev_handle w).1 =
        (env.i2c_master_bus_add_device w.trace (w.ctx_mem handler).bus_handle
          { dev_addr_length := i2c_addr_bit_len_t.I2C_ADDR_BIT_LEN_7
            device_address := dev_addr
            scl_speed_hz := speed_hz }).1 ∧
      new_events w (i2c_handler_add_device env handler dev_addr speed_hz out_dev_handle w).2 =
        [Event.i2c_master_bus_add_device (w.ctx_mem handler).bus_handle
          { dev_addr_length := i2c_addr_bit_len_t.I2C_ADDR_BIT_LEN_7
            device_address := dev_addr
            scl_speed_hz := speed_hz } out_dev_handle] ∧
      (i2c_handler_add_device env handler dev_addr speed_hz out_dev_handle w).2.live = w.live ∧
      (i2c_handler_add_device env handler dev_addr speed_hz out_dev_handle w).2.ctx_mem
        = w.ctx_mem ∧
      ∀ slot : Ptr, slot ≠ out_dev_handle →
        (i2c_handler_add_device env handler dev_addr speed_hz out_dev_handle w).2.dev_slots slot
          = w.dev_slots slot) := by
  refine ⟨?_, ?_, ?_⟩
  · intro handler out h
    simp [i2c_handler_add_device, h]
  · intro handler
    simp [i2c_handler_add_device]
  · intro handler out hh ho
    simp only [i2c_handler_add_device, hh, ho, or_self, if_false, i2c_master_bus_add_device,
      emit, new_events]
    cases (env.i2c_master_bus_add_device w.trace (w.ctx_mem handler).bus_handle
          { dev_addr_length := i2c_addr_bit_len_t.I2C_ADDR_BIT_LEN_7
            device_address := dev_addr
            scl_speed_hz := speed_hz }).2 with
    | none => simp
    | some d =>
      simp only [List.drop_left, true_and]
      intro slot hs
      simp [Function.update, hs]

/-- Witness for C8: a null output pointer with a non-null handle, and a
registration of address 0x50 at 400 kHz through handle 16 into slot 8. -/
theorem add_device_contract_witness :
    i2c_handler_add_device (env_of 16 (ESP_OK, some 64) ESP_OK) 16 0x50 400000 NULL world0
      = (ESP_ERR_INVALID_ARG, world0) ∧
    new_events world0
      (i2c_handler_add_device (env_of 16 (ESP_OK, some 64) ESP_OK) 16 0x50 400000 8 world0).2 =
        [Event.i2c_master_bus_add_device (world0.ctx_mem 16).bus_handle
          { dev_addr_length := i2c_addr_bit_len_t.I2C_ADDR_BIT_LEN_7
            device_address := 0x50
            scl_speed_hz := 400000 } 8] :=
  ⟨(add_device_contract (env_of 16 (ESP_OK, some 64) ESP_OK) world0 0x50 400000).1 16 NULL
      (Or.inr rfl),
   ((add_device_contract (env_of 16 (ESP_OK, some 64) ESP_OK) world0 0x50 400000).2.2 16 8
      (by decide) (by decide)).2.1⟩

/-! ### C9: blocking transfers -/

/-- C9: for every device handle, buffer and length, i2c_handler_device_write
issues exactly one i2c_master_transmit call and i2c_handler_device_read exactly
one i2c_master_receive call, with the same device handle, buffer and length and
the timeout value -1, change nothing else, and return the code answered by the
driver unchanged, whatever that code is. -/
theorem device_write_read_forward (env : Env) (w : World) (dev_handle data : Ptr) (len : Nat) :
    i2c_handler_device_write env dev_handle data len w =
      (env.i2c_master_transmit w.trace dev_handle data len (-1),
        { w with trace := w.trace ++ [Event.i2c_master_transmit dev_handle data len (-1)] }) ∧
    i2c_handler_device_read env dev_handle data len w =
      (env.i2c_master_receive w.trace dev_handle data len (-1),
        { w with trace := w.trace ++ [Event.i2c_master_receive dev_handle data len (-1)] }) ∧
    new_events w (i2c_handler_device_write env dev_handle data len w).2 =
      [Event.i2c_master_transmit dev_handle data len (-1)] ∧
    new_events w (i2c_handler_device_read env dev_handle data len w).2 =
      [Event.i2c_master_receive dev_handle data len (-1)] := by
  refine ⟨rfl, rfl, ?_, ?_⟩ <;>
    simp [new_events, i2c_handler_device_write, i2c_handler_device_read, i2c_master_transmit,
      i2c_master_receive, emit]

/-! ### C10: which driver failure codes reach the caller -/

/-- The world after i2c_handler_deinit does not depend on what the bus-delete
call answers. -/
theorem deinit_del_answer_irrelevant (env : Env) (f : List Event → Ptr → esp_err_t)
    (handler : Ptr) (w : World) :
    i2c_handler_deinit { env with i2c_del_master_bus := f } handler w =
      i2c_handler_deinit env handler w := rfl

/-- The world after i2c_handler_remove_device does not depend on what the
device-unregister call answers. -/
theorem remove_device_rm_answer_irrelevant (env : Env) (f : List Event → Ptr → esp_err_t)
    (dev_handle : Ptr) (w : World) :
    i2c_handler_remove_device { env with i2c_master_bus_rm_device := f } dev_handle w =
      i2c_handler_remove_device env dev_handle w := rfl

/-- C10, refuted as stated: i2c_handler_deinit on a handle from a successful
i2c_handler_init, and i2c_handler_remove_device on a non-null device handle,
leave the same world whether the driver call answers ESP_FAIL or
ESP_ERR_TIMEOUT, so no observation of their outcome yields the failure code of
the driver call. -/
theorem deinit_remove_hide_driver_code :
    (¬ ∃ observe : World → esp_err_t, ∀ e : esp_err_t, e ≠ ESP_OK →
      observe (i2c_handler_deinit (env_of 16 (ESP_OK, some 64) e)
        (i2c_handler_init (env_of 16 (ESP_OK, some 64) e) (some config0) world0).1
        (i2c_handler_init (env_of 16 (ESP_OK, some 64) e) (some config0) world0).2) = e) ∧
    (¬ ∃ observe : World → esp_err_t, ∀ e : esp_err_t, e ≠ ESP_OK →
      observe (i2c_handler_remove_device (env_of 16 (ESP_OK, some 64) e) 32 world0) = e) := by
  constructor
  · rintro ⟨observe, h⟩
    have h1 := h ESP_FAIL (by decide)
    have h2 := h ESP_ERR_TIMEOUT (by decide)
    have hw : i2c_handler_deinit (env_of 16 (ESP_OK, some 64) ESP_FAIL)
        (i2c_handler_init (env_of 16 (ESP_OK, some 64) ESP_FAIL) (some config0) world0).1
        (i2c_handler_init (env_of 16 (ESP_OK, some 64) ESP_FAIL) (some config0) world0).2 =
      i2c_handler_deinit (env_of 16 (ESP_OK, some 64) ESP_ERR_TIMEOUT)
        (i2c_handler_init (env_of 16 (ESP_OK, some 64) ESP_ERR_TIMEOUT) (some config0) world0).1
        (i2c_handler_init (env_of 16 (ESP_OK, some 64) ESP_ERR_TIMEOUT) (some config0) world0).2 :=
      rfl
    rw [hw, h2] at h1
    exact absurd h1 (by decide)
  · rintro ⟨observe, h⟩
    have h1 := h ESP_FAIL (by decide)
    have h2 := h ESP_ERR_TIMEOUT (by decide)
    have hw : i2c_handler_remove_device (env_of 16 (ESP_OK, some 64) ESP_FAIL) 32 world0 =
      i2c_handler_remove_device (env_of 16 (ESP_OK, some 64) ESP_ERR_TIMEOUT) 32 world0 := rfl
    rw [hw, h2] at h1
    exact absurd h1 (by decide)

/-- C10, as amended: probe, add_device, device_write and device_read return
the code answered by the driver call they make, unchanged, for every code;
i2c_handler_init reports a bus-creation failure as NULL; i2c_handler_deinit
and i2c_handler_remove_device return nothing and their effect does not depend
on the code answered by bus-delete and device-unregister. -/
theorem driver_codes_surfaced (env : Env) (w : World) :
    (∀ (handler : Ptr) (dev_addr : Nat) (e : esp_err_t), handler ≠ NULL →
      env.i2c_master_probe w.trace (w.ctx_mem handler).bus_handle dev_addr 100 = e →
      (i2c_handler_probe env handler dev_addr w).1 = e) ∧
    (∀ (handler out_dev_handle : Ptr) (dev_addr speed_hz : Nat) (e : esp_err_t),
      handler ≠ NULL → out_dev_handle ≠ NULL →
      (env.i2c_master_bus_add_device w.trace (w.ctx_mem handler).bus_handle
        { dev_addr_length := i2c_addr_bit_len_t.I2C_ADDR_BIT_LEN_7
          device_address := dev_addr
          scl_speed_hz := speed_hz }).1 = e →
      (i2c_handler_add_device env handler dev_addr speed_hz out_dev_handle w).1 = e) ∧
    (∀ (dev_handle data : Ptr) (len : Nat) (e : esp_err_t),
      env.i2c_master_transmit w.trace dev_handle data len (-1) = e →
      (i2c_handler_device_write env dev_handle data len w).1 = e) ∧
    (∀ (dev_handle data : Ptr) (len : Nat) (e : esp_err_t),
      env.i2c_master_receive w.trace dev_handle data len (-1) = e →
      (i2c_handler_device_read env dev_handle data len w).1 = e) ∧
    (∀ config : i2c_handler_config_t, env.malloc w.trace ≠ NULL →
      (env.i2c_new_master_bus (w.trace ++ [Event.malloc (env.malloc w.trace)])
        (bus_config_of config)).1 ≠ ESP_OK →
      (i2c_handler_init env (some config) w).1 = NULL) ∧
    (∀ (handler : Ptr) (f : List Event → Ptr → esp_err_t),
      i2c_handler_deinit { env with i2c_del_master_bus := f } handler w =
        i2c_handler_deinit env handler w) ∧
    (∀ (dev_handle : Ptr) (f : List Event → Ptr → esp_err_t),
      i2c_handler_remove_device { env with i2c_master_bus_rm_device := f } dev_handle w =
        i2c_handler_remove_device env dev_handle w) := by
  refine ⟨?_, ?_, ?_, ?_, ?_, ?_, ?_⟩
  · intro handler dev_addr e hh he
    simp [i2c_handler_probe, hh, i2c_master_probe, I2C_HANDLER_PROBE_TIMEOUT_MS, he]
  · intro handler out dev_addr speed_hz e hh ho he
    simp [i2c_handler_add_device, hh, ho, i2c_master_bus_add_device, he]
  · intro dev_handle data len e he
    simp [i2c_handler_device_write, i2c_master_transmit, he]
  · intro dev_handle data len e he
    simp [i2c_handler_device_read, i2c_master_receive, he]
  · intro config halloc hfail
    exact (init_bus_fail env w config halloc hfail).1
  · intro handler f
    exact deinit_del_answer_irrelevant env f handler w
  · intro dev_handle f
    exact remove_device_rm_answer_irrelevant env f dev_handle w

/-- Witness for C10 as amended: a probe through handle 16 whose driver call
answers ESP_ERR_TIMEOUT returns ESP_ERR_TIMEOUT. -/
theorem driver_codes_surfaced_witness :
    (i2c_handler_probe (env_of 16 (ESP_OK, some 64) ESP_ERR_TIMEOUT) 16 0x50 world0).1
      = ESP_ERR_TIMEOUT :=
  (driver_codes_surfaced (env_of 16 (ESP_OK, some 64) ESP_ERR_TIMEOUT) world0).1 16 0x50
    ESP_ERR_TIMEOUT (by decide) rfl

end I2CHandler
